import Mathlib

/-!
Verification of the secrets client bindings (pkg/bindings/secrets/secrets.go).

The four public operations List, Inspect, Create, Remove are translated
directly from the Go source as `Secrets.list`, `Secrets.inspect`,
`Secrets.create`, `Secrets.remove`.  The collaborators that the source
calls but whose code is not part of the repository snapshot (the
connection provider GetClient, the request primitive DoRequest, the
response processor Process, and the options/entities types) are modelled
from the spec; each such definition carries a doc comment saying so.

Each operation is embedded as a function of an environment `Env` that
supplies the outcome of connection acquisition and the transport's
response to any request.  Besides the Go return values, every operation
also returns the list of requests handed to the transport, so that
claims about which requests are issued (verb, path, parameters, body,
and how many round trips happen) are statable.
-/

set_option autoImplicit false

/-- Modelled from the spec: a request body is an opaque byte stream; a
Go io.Reader argument may be nil, which is `none` here. -/
def ByteStream := List Nat
deriving DecidableEq, Repr

/-- Modelled from the spec: query parameters are a flat mapping of
parameter name to encoded value. -/
def QueryParams := List (String × String)
deriving DecidableEq, Repr

/-- Modelled from the spec: header mapping (always nil in the source). -/
def Headers := List (String × String)
deriving DecidableEq, Repr

/-- HTTP verbs used by the four operations. -/
inductive Verb where
  | GET
  | POST
  | DELETE
deriving DecidableEq, Repr

/-- Modelled from the spec: ResourceInfo, the canonical description of
one remote secret (identity and metadata), produced only by decoding
List/Inspect responses (entities.SecretInfoReport). -/
structure SecretInfoReport where
  ID : String
  Name : String
deriving DecidableEq, Repr

/-- Modelled from the spec: CreateReport, carrying the server-assigned
identity of a newly created secret (entities.SecretCreateReport). -/
structure SecretCreateReport where
  ID : String
deriving DecidableEq, Repr

/-- Modelled from the spec: StructuredError carries an HTTP-level status
classification and a server-supplied message. -/
structure StructuredError where
  responseCode : Nat
  message : String
deriving DecidableEq, Repr

/-- Modelled from the spec: the error taxonomy crossing the boundary
back to the caller: connection errors, transport errors, API errors
(StructuredError), and decode errors. -/
inductive GoError where
  | conn (msg : String)
  | transport (msg : String)
  | api (e : StructuredError)
  | decode (msg : String)
deriving DecidableEq, Repr

/-- Modelled from the spec: ListOptions is a configuration value object
carrying the recognized options for List (filters), whose sole behavior
is self-encoding into query parameters. -/
structure ListOptions where
  filters : List (String × String)
deriving DecidableEq, Repr

/-- Modelled from the spec: InspectOptions carries no recognized
options. -/
inductive InspectOptions where
  | mk
deriving DecidableEq, Repr

/-- Modelled from the spec: CreateOptions carries the recognized options
for Create (name, driver, labels), never mutated after construction. -/
structure CreateOptions where
  name : Option String
  driver : Option String
  labels : List (String × String)
deriving DecidableEq, Repr

/-- Modelled from the spec: the pure self-encoding of a CreateOptions
value into a flat query-parameter mapping. -/
def CreateOptions.encode (o : CreateOptions) : QueryParams :=
  (match o.name with
   | none => []
   | some n => [("name", n)]) ++
  (match o.driver with
   | none => []
   | some d => [("driver", d)]) ++
  o.labels.map (fun kv => ("label", kv.1 ++ "=" ++ kv.2))

/-- Modelled from the spec: the encoding of an optional options value.
An absent options value encodes to no query parameters. -/
def optionParams : Option CreateOptions → QueryParams
  | none => []
  | some o => o.encode

/-- Modelled from the spec: options.ToParams() in the source is a
conversion that can itself fail; the recognized options here always
encode successfully. -/
def createToParams (o : Option CreateOptions) : Except GoError QueryParams :=
  Except.ok (optionParams o)

/-- Modelled from the spec: percent-encoding of one path character, so
that resource names containing reserved path characters do not corrupt
routing. -/
def hexDigitChar (n : Nat) : Char :=
  if n < 10 then Char.ofNat (48 + n) else Char.ofNat (55 + n)

/-- Modelled from the spec: escape one character of a path argument. -/
def pathEscapeChar (c : Char) : List Char :=
  if c.isAlphanum || c = '-' || c = '_' || c = '.' || c = '~' then [c]
  else ['%', hexDigitChar (c.toNat / 16 % 16), hexDigitChar (c.toNat % 16)]

/-- Modelled from the spec: escape a whole path argument. -/
def pathEscape (s : String) : String :=
  String.mk (s.data.map pathEscapeChar).flatten

/-- Modelled from the spec: positional substitution of escaped path
arguments into the substitution slots of a path template. -/
def substPath : List Char → List String → List Char
  | [], _ => []
  | '%' :: 's' :: rest, a :: as => a.data ++ substPath rest as
  | c :: rest, as => c :: substPath rest as

/-- Modelled from the spec: the ephemeral Request value combining verb,
substituted path, encoded query parameters, and an optional body
stream. -/
structure Request where
  body : Option ByteStream
  verb : Verb
  path : String
  params : Option QueryParams
  headers : Option Headers
deriving DecidableEq, Repr

/-- Modelled from the spec: the body of a transport-level response as
seen by the decoder: a decodable payload of one of the result types, a
structured failure payload, an empty body, or undecodable bytes. -/
inductive Body where
  | empty
  | infoList (xs : List SecretInfoReport)
  | info (x : SecretInfoReport)
  | createReport (x : SecretCreateReport)
  | errorPayload (msg : String)
  | undecodable
deriving DecidableEq, Repr

/-- Modelled from the spec: a transport-level response: status and body. -/
structure Response where
  status : Nat
  body : Body
deriving DecidableEq, Repr

/-- Modelled from the spec: the environment a call runs against: the
outcome of acquiring a connection from the provider for the given
context, and the transport's answer to each issued request. -/
structure Env where
  client : Except GoError Unit
  respond : Request → Except GoError Response

/-- Modelled from the spec: the Request Encoder: build the final request
from a verb, a path template, optional query parameters, an optional
body stream, and positional path arguments (escaped before
substitution). -/
def mkRequest (httpBody : Option ByteStream) (verb : Verb) (endpoint : String)
    (params : Option QueryParams) (headers : Option Headers)
    (pathArgs : List String) : Request :=
  { body := httpBody
    verb := verb
    path := String.mk (substPath endpoint.data (pathArgs.map pathEscape))
    params := params
    headers := headers }

/-- Modelled from the spec: the Connection's single primitive
issue(bodyStream, verb, pathTemplate, queryParams, headers, pathArgs)
returning the transport outcome; the built request is returned alongside
so the embedding can record what was issued. -/
def Env.doRequest (env : Env) (httpBody : Option ByteStream) (verb : Verb)
    (endpoint : String) (params : Option QueryParams) (headers : Option Headers)
    (pathArgs : List String) : Except GoError Response × Request :=
  let req := mkRequest httpBody verb endpoint params headers pathArgs
  (env.respond req, req)

/-- Modelled from the spec: success statuses are the 2xx range. -/
def isSuccess (status : Nat) : Bool :=
  200 ≤ status && status < 300

/-- Modelled from the spec: the single logical error-decode codepath: a
non-success response with a decodable structured failure payload becomes
a StructuredError carrying the server's classification and message; a
non-success response without one is surfaced as a generic
transport-classified error. -/
def processFailure (r : Response) : GoError :=
  match r.body with
  | Body.errorPayload msg => GoError.api { responseCode := r.status, message := msg }
  | _ => GoError.transport "bad response status with undecodable error payload"

/-- Modelled from the spec: the Response Processor for a list-of-info
target: on a success status decode the body into the sequence (an
undecodable body is itself an error); otherwise decode the failure. -/
def processList (r : Response) : Except GoError (List SecretInfoReport) :=
  if isSuccess r.status then
    match r.body with
    | Body.infoList xs => Except.ok xs
    | _ => Except.error (GoError.decode "cannot decode secret list")
  else Except.error (processFailure r)

/-- Modelled from the spec: the Response Processor for a single-info
target. -/
def processInfo (r : Response) : Except GoError SecretInfoReport :=
  if isSuccess r.status then
    match r.body with
    | Body.info x => Except.ok x
    | _ => Except.error (GoError.decode "cannot decode secret info")
  else Except.error (processFailure r)

/-- Modelled from the spec: the Response Processor for a create-report
target. -/
def processCreate (r : Response) : Except GoError SecretCreateReport :=
  if isSuccess r.status then
    match r.body with
    | Body.createReport x => Except.ok x
    | _ => Except.error (GoError.decode "cannot decode create report")
  else Except.error (processFailure r)

/-- Modelled from the spec: processing into a nil target still validates
the status and surfaces an error if the status indicates failure, even
though no body is decoded. -/
def processNil (r : Response) : Option GoError :=
  if isSuccess r.status then none else some (processFailure r)

/-- Translated from List in pkg/bindings/secrets/secrets.go: declare a
nil result slice, acquire the client, issue GET /secrets/json with nil
body, nil params and nil headers, and process the response into the
slice.  The options argument is not consulted anywhere in the body.
The third component records the requests handed to DoRequest. -/
def Secrets.list (env : Env) (options : Option ListOptions) :
    Option (List SecretInfoReport) × Option GoError × List Request :=
  match env.client with
  | Except.error err => (none, some err, [])
  | Except.ok _ =>
    match env.doRequest none Verb.GET "/secrets/json" none none [] with
    | (Except.error err, req) => (none, some err, [req])
    | (Except.ok response, req) =>
      match processList response with
      | Except.error err => (none, some err, [req])
      | Except.ok xs => (some xs, none, [req])

/-- Translated from Inspect in pkg/bindings/secrets/secrets.go: declare
a nil result pointer, acquire the client, issue GET /secrets/%s/json
with the name substituted, and process the response into the pointer. -/
def Secrets.inspect (env : Env) (nameOrID : String) (options : Option InspectOptions) :
    Option SecretInfoReport × Option GoError × List Request :=
  match env.client with
  | Except.error err => (none, some err, [])
  | Except.ok _ =>
    match env.doRequest none Verb.GET "/secrets/%s/json" none none [nameOrID] with
    | (Except.error err, req) => (none, some err, [req])
    | (Except.ok response, req) =>
      match processInfo response with
      | Except.error err => (none, some err, [req])
      | Except.ok x => (some x, none, [req])

/-- Translated from Remove in pkg/bindings/secrets/secrets.go: acquire
the client, issue DELETE /secrets/%s with the name substituted, and
process the response into a nil target. -/
def Secrets.remove (env : Env) (nameOrID : String) :
    Option GoError × List Request :=
  match env.client with
  | Except.error err => (some err, [])
  | Except.ok _ =>
    match env.doRequest none Verb.DELETE "/secrets/%s" none none [nameOrID] with
    | (Except.error err, req) => (some err, [req])
    | (Except.ok response, req) => (processNil response, [req])

/-- Translated from Create in pkg/bindings/secrets/secrets.go: declare a
nil result pointer, acquire the client, encode the options into query
parameters, issue POST /secrets/create with the caller-supplied reader
as the body, and process the response into the pointer.  The reader is
not examined before being handed to DoRequest. -/
def Secrets.create (env : Env) (reader : Option ByteStream) (options : Option CreateOptions) :
    Option SecretCreateReport × Option GoError × List Request :=
  match env.client with
  | Except.error err => (none, some err, [])
  | Except.ok _ =>
    match createToParams options with
    | Except.error err => (none, some err, [])
    | Except.ok params =>
      match env.doRequest reader Verb.POST "/secrets/create" (some params) none [] with
      | (Except.error err, req) => (none, some err, [req])
      | (Except.ok response, req) =>
        match processCreate response with
        | Except.error err => (none, some err, [req])
        | Except.ok x => (some x, none, [req])

/-- The request List hands to the transport. -/
def listRequest : Request :=
  mkRequest none Verb.GET "/secrets/json" none none []

/-- The request Inspect hands to the transport for a given identifier. -/
def inspectRequest (nameOrID : String) : Request :=
  mkRequest none Verb.GET "/secrets/%s/json" none none [nameOrID]

/-- The request Remove hands to the transport for a given identifier. -/
def removeRequest (nameOrID : String) : Request :=
  mkRequest none Verb.DELETE "/secrets/%s" none none [nameOrID]

/-- The request Create hands to the transport for a given reader and
options value. -/
def createRequest (reader : Option ByteStream) (options : Option CreateOptions) : Request :=
  mkRequest reader Verb.POST "/secrets/create" (some (optionParams options)) none []

/-- An environment whose connection acquisition succeeds and whose
transport answers every request with status 200 and an empty secret
list. -/
def listOkEnv : Env :=
  { client := Except.ok ()
    respond := fun _ => Except.ok { status := 200, body := Body.infoList [] } }

/-- An environment whose connection acquisition succeeds and whose
transport answers every request with status 200 and a create report. -/
def createOkEnv : Env :=
  { client := Except.ok ()
    respond := fun _ => Except.ok { status := 200, body := Body.createReport { ID := "abc123" } } }

/-- An environment whose connection acquisition succeeds and whose
transport answers every request with status 404 and a structured
failure payload. -/
def notFoundEnv : Env :=
  { client := Except.ok ()
    respond := fun _ => Except.ok { status := 404, body := Body.errorPayload "no such secret" } }

/-- An environment whose connection acquisition fails. -/
def connFailEnv : Env :=
  { client := Except.error (GoError.conn "unable to connect to the service socket")
    respond := fun _ => Except.ok { status := 200, body := Body.empty } }

/-- An environment whose connection acquisition succeeds but whose
transport fails on every request. -/
def transportFailEnv : Env :=
  { client := Except.ok ()
    respond := fun _ => Except.error (GoError.transport "connection reset") }

/-- Substituting an escaped identifier into the Inspect path template. -/
theorem inspectRequest_path (nameOrID : String) :
    (inspectRequest nameOrID).path = "/secrets/" ++ pathEscape nameOrID ++ "/json" := rfl

/-- Substituting an escaped identifier into the Remove path template. -/
theorem removeRequest_path (nameOrID : String) :
    (removeRequest nameOrID).path = "/secrets/" ++ pathEscape nameOrID := by
  show String.mk ("/secrets/".data ++ ((pathEscape nameOrID).data ++ [])) =
    "/secrets/" ++ pathEscape nameOrID
  rw [List.append_nil]
  rfl

/-- C1 counterexample: calling Create with a nil body stream in an
environment where connection acquisition and the request both succeed
does not fail locally: a request is handed to DoRequest (the log holds
one request, whose body is the nil reader) and the call succeeds. -/
theorem C1_counterexample :
    Secrets.create createOkEnv none none =
      (some { ID := "abc123" }, none, [createRequest none none]) ∧
    (createRequest none none).body = none := ⟨rfl, rfl⟩

/-- C1 (amended): Create performs no local nil check on its reader:
whenever connection acquisition succeeds, the nil reader is handed
through unchanged to DoRequest and exactly one request is issued, with
an absent body. -/
theorem C1_create_passes_nil_reader_through (env : Env) (copt : Option CreateOptions)
    (h : env.client = Except.ok ()) :
    (Secrets.create env none copt).2.2 = [createRequest none copt] ∧
    (createRequest none copt).body = none := by
  refine ⟨?_, rfl⟩
  have hreq : createRequest none copt =
      mkRequest none Verb.POST "/secrets/create" (some (optionParams copt)) none [] := rfl
  simp only [Secrets.create, Env.doRequest, createToParams, h, ← hreq]
  cases henv : env.respond (createRequest none copt) with
  | error e => simp [henv]
  | ok r =>
    cases hp : processCreate r with
    | error e => simp [henv, hp]
    | ok x => simp [henv, hp]

/-- C1 witness: the amended theorem applied to a concrete succeeding
environment. -/
theorem C1_create_passes_nil_reader_through_witness :
    createOkEnv.client = Except.ok () ∧
    ((Secrets.create createOkEnv none none).2.2 = [createRequest none none] ∧
      (createRequest none none).body = none) :=
  ⟨rfl, C1_create_passes_nil_reader_through createOkEnv none rfl⟩

/-- C2 counterexample: with a filters option naming exactly name=foo,
List issues its one request with absent query parameters, not with that
parameter. -/
theorem C2_counterexample :
    Secrets.list listOkEnv (some { filters := [("name", "foo")] }) =
      (some [], none, [listRequest]) ∧
    listRequest.params = none := ⟨rfl, rfl⟩

/-- C2 (amended): List ignores its options value entirely: the call is
identical to a call with absent options, and any request it issues
carries no query parameters. -/
theorem C2_list_ignores_options (env : Env) (lopt : Option ListOptions) :
    Secrets.list env lopt = Secrets.list env none ∧
    ((Secrets.list env lopt).2.2.map Request.params = [] ∨
      (Secrets.list env lopt).2.2.map Request.params = [none]) := by
  refine ⟨rfl, ?_⟩
  simp only [Secrets.list, Env.doRequest]
  cases env.client with
  | error e => simp
  | ok u =>
    cases hr : env.respond (mkRequest none Verb.GET "/secrets/json" none none []) with
    | error e => simp [hr, mkRequest]
    | ok r =>
      cases hp : processList r with
      | error e => simp [hr, hp, mkRequest]
      | ok xs => simp [hr, hp, mkRequest]

/-- C3: every operation yields exactly one of a typed result or an
error: the result is absent precisely when the error is present.
Remove has no result value, so the invariant is carried by the three
result-bearing operations. -/
theorem C3_exactly_one_of_result_or_error (env : Env) (nameOrID : String)
    (reader : Option ByteStream) (lopt : Option ListOptions)
    (iopt : Option InspectOptions) (copt : Option CreateOptions) :
    ((Secrets.list env lopt).1 = none ↔ (Secrets.list env lopt).2.1 ≠ none) ∧
    ((Secrets.inspect env nameOrID iopt).1 = none ↔
      (Secrets.inspect env nameOrID iopt).2.1 ≠ none) ∧
    ((Secrets.create env reader copt).1 = none ↔
      (Secrets.create env reader copt).2.1 ≠ none) := by
  refine ⟨?_, ?_, ?_⟩
  · simp only [Secrets.list, Env.doRequest]
    cases env.client with
    | error e => simp
    | ok u =>
      cases hr : env.respond (mkRequest none Verb.GET "/secrets/json" none none []) with
      | error e => simp [hr]
      | ok r =>
        cases hp : processList r with
        | error e => simp [hr, hp]
        | ok xs => simp [hr, hp]
  · simp only [Secrets.inspect, Env.doRequest]
    cases env.client with
    | error e => simp
    | ok u =>
      cases hr : env.respond (mkRequest none Verb.GET "/secrets/%s/json" none none [nameOrID]) with
      | error e => simp [hr]
      | ok r =>
        cases hp : processInfo r with
        | error e => simp [hr, hp]
        | ok x => simp [hr, hp]
  · simp only [Secrets.create, Env.doRequest, createToParams]
    cases env.client with
    | error e => simp
    | ok u =>
      cases hr : env.respond (mkRequest reader Verb.POST "/secrets/create"
          (some (optionParams copt)) none []) with
      | error e => simp [hr]
      | ok r =>
        cases hp : processCreate r with
        | error e => simp [hr, hp]
        | ok x => simp [hr, hp]

/-- C4: each operation hands the transport a request with exactly the
specified verb and path: List GET /secrets/json, Inspect GET
/secrets/{name}/json with the escaped identifier substituted, Create
POST /secrets/create, Remove DELETE /secrets/{name} with the escaped
identifier substituted.  When connection acquisition fails no request
exists at all. -/
theorem C4_request_verbs_and_paths (env : Env) (nameOrID : String)
    (reader : Option ByteStream) (lopt : Option ListOptions)
    (iopt : Option InspectOptions) (copt : Option CreateOptions) :
    ((Secrets.list env lopt).2.2 = [] ∨
      ∃ req, (Secrets.list env lopt).2.2 = [req] ∧
        req.verb = Verb.GET ∧ req.path = "/secrets/json") ∧
    ((Secrets.inspect env nameOrID iopt).2.2 = [] ∨
      ∃ req, (Secrets.inspect env nameOrID iopt).2.2 = [req] ∧
        req.verb = Verb.GET ∧
        req.path = "/secrets/" ++ pathEscape nameOrID ++ "/json") ∧
    ((Secrets.create env reader copt).2.2 = [] ∨
      ∃ req, (Secrets.create env reader copt).2.2 = [req] ∧
        req.verb = Verb.POST ∧ req.path = "/secrets/create") ∧
    ((Secrets.remove env nameOrID).2 = [] ∨
      ∃ req, (Secrets.remove env nameOrID).2 = [req] ∧
        req.verb = Verb.DELETE ∧
        req.path = "/secrets/" ++ pathEscape nameOrID) := by
  refine ⟨?_, ?_, ?_, ?_⟩
  · simp only [Secrets.list, Env.doRequest]
    cases env.client with
    | error e => simp
    | ok u =>
      refine Or.inr ⟨listRequest, ?_, rfl, rfl⟩
      cases hr : env.respond (mkRequest none Verb.GET "/secrets/json" none none []) with
      | error e => simp [hr, listRequest]
      | ok r =>
        cases hp : processList r with
        | error e => simp [hr, hp, listRequest]
        | ok xs => simp [hr, hp, listRequest]
  · simp only [Secrets.inspect, Env.doRequest]
    cases env.client with
    | error e => simp
    | ok u =>
      refine Or.inr ⟨inspectRequest nameOrID, ?_, rfl, inspectRequest_path nameOrID⟩
      cases hr : env.respond (mkRequest none Verb.GET "/secrets/%s/json" none none [nameOrID]) with
      | error e => simp [hr, inspectRequest]
      | ok r =>
        cases hp : processInfo r with
        | error e => simp [hr, hp, inspectRequest]
        | ok x => simp [hr, hp, inspectRequest]
  · simp only [Secrets.create, Env.doRequest, createToParams]
    cases env.client with
    | error e => simp
    | ok u =>
      refine Or.inr ⟨createRequest reader copt, ?_, rfl, rfl⟩
      cases hr : env.respond (mkRequest reader Verb.POST "/secrets/create"
          (some (optionParams copt)) none []) with
      | error e => simp [hr, createRequest]
      | ok r =>
        cases hp : processCreate r with
        | error e => simp [hr, hp, createRequest]
        | ok x => simp [hr, hp, createRequest]
  · simp only [Secrets.remove, Env.doRequest]
    cases env.client with
    | error e => simp
    | ok u =>
      refine Or.inr ⟨removeRequest nameOrID, ?_, rfl, removeRequest_path nameOrID⟩
      cases hr : env.respond (mkRequest none Verb.DELETE "/secrets/%s" none none [nameOrID]) with
      | error e => simp [hr, removeRequest]
      | ok r => simp [hr, removeRequest]

/-- C5: under the precondition of a non-empty identifier, if the
connection is acquired and the server answers the inspect request with
status 404 and a structured failure payload, Inspect returns a nil
result together with a StructuredError carrying the not-found
classification and the server message — never a nil result with a nil
error. -/
theorem C5_inspect_not_found (env : Env) (nameOrID : String)
    (iopt : Option InspectOptions) (msg : String)
    (hname : nameOrID ≠ "")
    (hclient : env.client = Except.ok ())
    (hresp : env.respond (inspectRequest nameOrID) =
      Except.ok { status := 404, body := Body.errorPayload msg }) :
    Secrets.inspect env nameOrID iopt =
      (none, some (GoError.api { responseCode := 404, message := msg }),
        [inspectRequest nameOrID]) := by
  have hreq : inspectRequest nameOrID =
      mkRequest none Verb.GET "/secrets/%s/json" none none [nameOrID] := rfl
  simp only [Secrets.inspect, Env.doRequest, hclient, ← hreq, hresp]
  rfl

/-- C5 witness: the theorem applied to the identifier db-pass and an
environment whose transport answers 404 with a structured payload. -/
theorem C5_inspect_not_found_witness :
    ("db-pass" ≠ "") ∧
    notFoundEnv.client = Except.ok () ∧
    Secrets.inspect notFoundEnv "db-pass" none =
      (none, some (GoError.api { responseCode := 404, message := "no such secret" }),
        [inspectRequest "db-pass"]) :=
  ⟨by decide, rfl,
    C5_inspect_not_found notFoundEnv "db-pass" none "no such secret" (by decide) rfl rfl⟩

/-- C6: Remove decodes no result body yet still validates the status:
when the connection is acquired and the transport delivers a response,
Remove returns no error exactly when the status is a success status,
and on a failing status with a structured payload it returns the
StructuredError carrying the server's own status and message — in
particular a not-found response yields an error, never a silent
success. -/
theorem C6_remove_validates_status (env : Env) (nameOrID : String) (resp : Response)
    (hclient : env.client = Except.ok ())
    (hresp : env.respond (removeRequest nameOrID) = Except.ok resp) :
    ((Secrets.remove env nameOrID).1 = none ↔ isSuccess resp.status = true) ∧
    (∀ msg, resp.body = Body.errorPayload msg → isSuccess resp.status = false →
      (Secrets.remove env nameOrID).1 =
        some (GoError.api { responseCode := resp.status, message := msg })) := by
  have hreq : removeRequest nameOrID =
      mkRequest none Verb.DELETE "/secrets/%s" none none [nameOrID] := rfl
  have hrm : Secrets.remove env nameOrID = (processNil resp, [removeRequest nameOrID]) := by
    simp only [Secrets.remove, Env.doRequest, hclient, ← hreq, hresp]
  rw [hrm]
  constructor
  · cases hs : isSuccess resp.status with
    | false => simp [processNil, hs]
    | true => simp [processNil, hs]
  · intro msg hbody hfail
    simp [processNil, hfail, processFailure, hbody]

/-- C6 witness: the theorem applied to a concrete environment whose
transport answers the remove request with 404 and a structured
payload. -/
theorem C6_remove_validates_status_witness :
    notFoundEnv.client = Except.ok () ∧
    ((Secrets.remove notFoundEnv "db-pass").1 = none ↔ isSuccess 404 = true) ∧
    (Secrets.remove notFoundEnv "db-pass").1 =
      some (GoError.api { responseCode := 404, message := "no such secret" }) :=
  ⟨rfl,
    (C6_remove_validates_status notFoundEnv "db-pass"
      { status := 404, body := Body.errorPayload "no such secret" } rfl rfl).1,
    (C6_remove_validates_status notFoundEnv "db-pass"
      { status := 404, body := Body.errorPayload "no such secret" } rfl rfl).2
      "no such secret" rfl rfl⟩

/-- C7: for every Create call, any issued request carries query
parameters equal to the self-encoding of the options value and a body
that is exactly the caller-supplied reader — options never reach the
body and the reader never reaches the query parameters. -/
theorem C7_create_body_and_params_separation (env : Env) (reader : Option ByteStream)
    (copt : Option CreateOptions) :
    (Secrets.create env reader copt).2.2 = [] ∨
    ((Secrets.create env reader copt).2.2 = [createRequest reader copt] ∧
      (createRequest reader copt).body = reader ∧
      (createRequest reader copt).params = some (optionParams copt)) := by
  simp only [Secrets.create, Env.doRequest, createToParams]
  cases env.client with
  | error e => simp
  | ok u =>
    refine Or.inr ⟨?_, rfl, rfl⟩
    cases hr : env.respond (mkRequest reader Verb.POST "/secrets/create"
        (some (optionParams copt)) none []) with
    | error e => simp [hr, createRequest]
    | ok r =>
      cases hp : processCreate r with
      | error e => simp [hr, hp, createRequest]
      | ok x => simp [hr, hp, createRequest]

/-- C8: errors from lower layers are forwarded upward unchanged: when
connection acquisition fails with e, every operation returns exactly e
with an absent result and issues no request; when the transport fails
with e on the issued request, the operation returns exactly e with an
absent result; when the response processor fails with e, the operation
returns exactly e. -/
theorem C8_errors_forwarded_unchanged (env : Env) (e : GoError) (nameOrID : String)
    (reader : Option ByteStream) (lopt : Option ListOptions)
    (iopt : Option InspectOptions) (copt : Option CreateOptions) :
    (env.client = Except.error e →
      Secrets.list env lopt = (none, some e, []) ∧
      Secrets.inspect env nameOrID iopt = (none, some e, []) ∧
      Secrets.create env reader copt = (none, some e, []) ∧
      Secrets.remove env nameOrID = (some e, [])) ∧
    (env.client = Except.ok () →
      (env.respond listRequest = Except.error e →
        Secrets.list env lopt = (none, some e, [listRequest])) ∧
      (env.respond (inspectRequest nameOrID) = Except.error e →
        Secrets.inspect env nameOrID iopt = (none, some e, [inspectRequest nameOrID])) ∧
      (env.respond (createRequest reader copt) = Except.error e →
        Secrets.create env reader copt = (none, some e, [createRequest reader copt])) ∧
      (env.respond (removeRequest nameOrID) = Except.error e →
        Secrets.remove env nameOrID = (some e, [removeRequest nameOrID]))) ∧
    (env.client = Except.ok () →
      (∀ r, env.respond listRequest = Except.ok r → processList r = Except.error e →
        Secrets.list env lopt = (none, some e, [listRequest])) ∧
      (∀ r, env.respond (inspectRequest nameOrID) = Except.ok r →
        processInfo r = Except.error e →
        Secrets.inspect env nameOrID iopt = (none, some e, [inspectRequest nameOrID])) ∧
      (∀ r, env.respond (createRequest reader copt) = Except.ok r →
        processCreate r = Except.error e →
        Secrets.create env reader copt = (none, some e, [createRequest reader copt]))) := by
  have hreqi : inspectRequest nameOrID =
      mkRequest none Verb.GET "/secrets/%s/json" none none [nameOrID] := rfl
  have hreqr : removeRequest nameOrID =
      mkRequest none Verb.DELETE "/secrets/%s" none none [nameOrID] := rfl
  have hreqc : createRequest reader copt =
      mkRequest reader Verb.POST "/secrets/create" (some (optionParams copt)) none [] := rfl
  have hreql : listRequest = mkRequest none Verb.GET "/secrets/json" none none [] := rfl
  refine ⟨?_, ?_, ?_⟩
  · intro hc
    exact ⟨by simp [Secrets.list, hc], by simp [Secrets.inspect, hc],
      by simp [Secrets.create, hc], by simp [Secrets.remove, hc]⟩
  · intro hc
    refine ⟨?_, ?_, ?_, ?_⟩
    · intro hr
      simp only [Secrets.list, Env.doRequest, hc, ← hreql, hr]
    · intro hr
      simp only [Secrets.inspect, Env.doRequest, hc, ← hreqi, hr]
    · intro hr
      simp only [Secrets.create, Env.doRequest, createToParams, hc, ← hreqc, hr]
    · intro hr
      simp only [Secrets.remove, Env.doRequest, hc, ← hreqr, hr]
  · intro hc
    refine ⟨?_, ?_, ?_⟩
    · intro r hr hp
      simp only [Secrets.list, Env.doRequest, hc, ← hreql, hr, hp]
    · intro r hr hp
      simp only [Secrets.inspect, Env.doRequest, hc, ← hreqi, hr, hp]
    · intro r hr hp
      simp only [Secrets.create, Env.doRequest, createToParams, hc, ← hreqc, hr, hp]

/-- C8 witness: the connection-failure part at a concrete failing
provider and the transport-failure part for List at a concrete failing
transport. -/
theorem C8_errors_forwarded_unchanged_witness :
    (Secrets.list connFailEnv none =
        (none, some (GoError.conn "unable to connect to the service socket"), []) ∧
      Secrets.inspect connFailEnv "db-pass" none =
        (none, some (GoError.conn "unable to connect to the service socket"), []) ∧
      Secrets.create connFailEnv none none =
        (none, some (GoError.conn "unable to connect to the service socket"), []) ∧
      Secrets.remove connFailEnv "db-pass" =
        (some (GoError.conn "unable to connect to the service socket"), [])) ∧
    Secrets.list transportFailEnv none =
      (none, some (GoError.transport "connection reset"), [listRequest]) :=
  ⟨(C8_errors_forwarded_unchanged connFailEnv
      (GoError.conn "unable to connect to the service socket")
      "db-pass" none none none none).1 rfl,
    (((C8_errors_forwarded_unchanged transportFailEnv
      (GoError.transport "connection reset")
      "db-pass" none none none none).2.1) rfl).1 rfl⟩

/-- C9: every operation is a single round trip: each call hands the
transport at most one request, in every environment and for every
argument. -/
theorem C9_single_round_trip (env : Env) (nameOrID : String)
    (reader : Option ByteStream) (lopt : Option ListOptions)
    (iopt : Option InspectOptions) (copt : Option CreateOptions) :
    (Secrets.list env lopt).2.2.length ≤ 1 ∧
    (Secrets.inspect env nameOrID iopt).2.2.length ≤ 1 ∧
    (Secrets.create env reader copt).2.2.length ≤ 1 ∧
    (Secrets.remove env nameOrID).2.length ≤ 1 := by
  refine ⟨?_, ?_, ?_, ?_⟩
  · simp only [Secrets.list, Env.doRequest]
    cases env.client with
    | error e => simp
    | ok u =>
      cases hr : env.respond (mkRequest none Verb.GET "/secrets/json" none none []) with
      | error e => simp [hr]
      | ok r =>
        cases hp : processList r with
        | error e => simp [hr, hp]
        | ok xs => simp [hr, hp]
  · simp only [Secrets.inspect, Env.doRequest]
    cases env.client with
    | error e => simp
    | ok u =>
      cases hr : env.respond (mkRequest none Verb.GET "/secrets/%s/json" none none [nameOrID]) with
      | error e => simp [hr]
      | ok r =>
        cases hp : processInfo r with
        | error e => simp [hr, hp]
        | ok x => simp [hr, hp]
  · simp only [Secrets.create, Env.doRequest, createToParams]
    cases env.client with
    | error e => simp
    | ok u =>
      cases hr : env.respond (mkRequest reader Verb.POST "/secrets/create"
          (some (optionParams copt)) none []) with
      | error e => simp [hr]
      | ok r =>
        cases hp : processCreate r with
        | error e => simp [hr, hp]
        | ok x => simp [hr, hp]
  · simp only [Secrets.remove, Env.doRequest]
    cases env.client with
    | error e => simp
    | ok u =>
      cases hr : env.respond (mkRequest none Verb.DELETE "/secrets/%s" none none [nameOrID]) with
      | error e => simp [hr]
      | ok r => simp [hr]

/-- C10: on the connection-acquisition failure path and on the
transport failure path, List returns a nil (absent) slice and Inspect a
nil pointer, together with the error: the declared result variables are
never populated before the response is processed. -/
theorem C10_nil_results_on_early_errors (env : Env) (e : GoError) (nameOrID : String)
    (lopt : Option ListOptions) (iopt : Option InspectOptions) :
    (env.client = Except.error e →
      (Secrets.list env lopt).1 = none ∧ (Secrets.list env lopt).2.1 = some e ∧
      (Secrets.inspect env nameOrID iopt).1 = none ∧
      (Secrets.inspect env nameOrID iopt).2.1 = some e) ∧
    (env.respond listRequest = Except.error e →
      (Secrets.list env lopt).1 = none ∧ (Secrets.list env lopt).2.1 ≠ none) ∧
    (env.respond (inspectRequest nameOrID) = Except.error e →
      (Secrets.inspect env nameOrID iopt).1 = none ∧
      (Secrets.inspect env nameOrID iopt).2.1 ≠ none) := by
  have hreqi : inspectRequest nameOrID =
      mkRequest none Verb.GET "/secrets/%s/json" none none [nameOrID] := rfl
  have hreql : listRequest = mkRequest none Verb.GET "/secrets/json" none none [] := rfl
  refine ⟨?_, ?_, ?_⟩
  · intro hc
    exact ⟨by simp [Secrets.list, hc], by simp [Secrets.list, hc],
      by simp [Secrets.inspect, hc], by simp [Secrets.inspect, hc]⟩
  · intro hr
    cases hc : env.client with
    | error e2 => simp [Secrets.list, hc]
    | ok u => simp [Secrets.list, Env.doRequest, hc, ← hreql, hr]
  · intro hr
    cases hc : env.client with
    | error e2 => simp [Secrets.inspect, hc]
    | ok u => simp [Secrets.inspect, Env.doRequest, hc, ← hreqi, hr]

/-- C10 witness: the connection-failure part at a failing provider and
the transport-failure part at a failing transport. -/
theorem C10_nil_results_on_early_errors_witness :
    ((Secrets.list connFailEnv none).1 = none ∧
      (Secrets.list connFailEnv none).2.1 =
        some (GoError.conn "unable to connect to the service socket") ∧
      (Secrets.inspect connFailEnv "db-pass" none).1 = none ∧
      (Secrets.inspect connFailEnv "db-pass" none).2.1 =
        some (GoError.conn "unable to connect to the service socket")) ∧
    ((Secrets.list transportFailEnv none).1 = none ∧
      (Secrets.list transportFailEnv none).2.1 ≠ none) :=
  ⟨(C10_nil_results_on_early_errors connFailEnv
      (GoError.conn "unable to connect to the service socket") "db-pass" none none).1 rfl,
    (C10_nil_results_on_early_errors transportFailEnv
      (GoError.transport "connection reset") "db-pass" none none).2.1 rfl⟩
